import Mathlib

/-!
Verification of the route-segmentation core of the weathermap repository
(`src/utils/routeUtils.js`, function `calculateRouteSegments`).

The JavaScript source is embedded shallowly:

* coordinates are pairs of rationals (idealising IEEE doubles by exact
  rational arithmetic, as the spec's tolerances allow);
* the third-party turf geometry (`turf.length`, `turf.along`) is an external
  collaborator and is modelled as an abstract `Geometry` record whose
  operations may fail (`Option`), failure standing for a thrown exception —
  `length` failing models an exception caught by the outer `try`, `along`
  failing models one caught by the inner `try`;
* the `while` loop over the cumulative-distance cursor is embedded with an
  explicit fuel argument; exhausting the fuel yields `none`, which models
  non-termination of the source loop.  The fuel supplied by
  `calculateRouteSegments` is proved sufficient whenever
  `distancePerInterval > 0`, and the loop is proved to exhaust every fuel
  when `distancePerInterval = 0` and distance remains, so `none` faithfully
  marks exactly the diverging runs;
* JavaScript objects whose fields differ across branches (the short-route
  waypoints carry no `segmentIndex`) are modelled with an `Option ℕ` field.
-/

/-- A geographic coordinate pair.  `calculateRouteSegments` receives
`[lat, lng]` pairs and swaps them to `[lng, lat]` for turf. -/
abbrev GeoPoint : Type := ℚ × ℚ

/-- The external turf geometry collaborator: `length` models
`turf.length(line)` (in kilometers) and `along` models
`turf.along(line, distance)` returning `[lng, lat]`.  A `none` result stands
for a thrown exception. -/
structure Geometry : Type where
  length : List GeoPoint → Option ℚ
  along : List GeoPoint → ℚ → Option GeoPoint

/-- A waypoint object pushed by `calculateRouteSegments`.  `segmentIndex` is
`none` for the two short-route waypoints, which the source constructs without
that field. -/
structure Waypoint : Type where
  coordinates : GeoPoint
  distanceFromStart : ℚ
  estimatedTime : ℚ
  segmentIndex : Option ℕ
deriving DecidableEq

/-- The mapping `routeCoordinates.map((coord) => [coord[1], coord[0]])`
producing the `[lng, lat]` order turf expects. -/
def toLngLat (routeCoordinates : List GeoPoint) : List GeoPoint :=
  routeCoordinates.map (fun coord => (coord.2, coord.1))

/-- The step `distancePerInterval = (averageSpeedKmh * intervalMinutes) / 60`
of the sampling loop, in kilometers per interval. -/
def distancePerInterval (averageSpeedKmh intervalMinutes : ℚ) : ℚ :=
  averageSpeedKmh * intervalMinutes / 60

/-- The intermediate-point loop of `calculateRouteSegments`:
`while (currentDistance < totalDistance - distancePerInterval)` advance the
cursor by `distancePerInterval`, try `turf.along`, and on success push a
waypoint and increment `segmentIndex`; on failure (inner `catch`) skip the
sample.  `fuel` bounds the number of iterations; `none` models a run that
does not finish within `fuel` iterations. -/
def loopIter (G : Geometry) (line : List GeoPoint)
    (totalDistance dpi averageSpeedKmh departureTimeMinutes : ℚ) :
    ℚ → ℕ → ℕ → Option (List Waypoint)
  | currentDistance, _, 0 =>
    if currentDistance < totalDistance - dpi then none else some []
  | currentDistance, segmentIndex, fuel + 1 =>
    if currentDistance < totalDistance - dpi then
      match G.along line (currentDistance + dpi) with
      | some p =>
          (loopIter G line totalDistance dpi averageSpeedKmh
              departureTimeMinutes (currentDistance + dpi) (segmentIndex + 1)
              fuel).map
            (fun rest =>
              { coordinates := (p.2, p.1)
                distanceFromStart := currentDistance + dpi
                estimatedTime := departureTimeMinutes +
                  (currentDistance + dpi) / averageSpeedKmh * 60
                segmentIndex := some segmentIndex } :: rest)
      | none =>
          loopIter G line totalDistance dpi averageSpeedKmh
            departureTimeMinutes (currentDistance + dpi) segmentIndex fuel
    else some []

/-- Shallow embedding of `calculateRouteSegments(routeCoordinates,
intervalMinutes, averageSpeedKmh, departureTimeMinutes)` from
`src/utils/routeUtils.js`, parametric in the turf geometry `G`.  The
`Option` input models a `null`/absent `routeCoordinates`; the `Option`
output is `none` exactly when the source loop diverges. -/
def calculateRouteSegments (G : Geometry) (routeCoordinates : Option (List GeoPoint))
    (intervalMinutes averageSpeedKmh departureTimeMinutes : ℚ) :
    Option (List Waypoint) :=
  match routeCoordinates with
  | none => some []
  | some coords =>
    if coords.length < 2 then some []
    else
      match G.length (toLngLat coords) with
      | none =>
        -- outer catch: fallback to start and end, both at distance 0
        some [{ coordinates := coords.headI
                distanceFromStart := 0
                estimatedTime := departureTimeMinutes
                segmentIndex := some 0 },
              { coordinates := coords.getLastI
                distanceFromStart := 0
                estimatedTime := departureTimeMinutes
                segmentIndex := some 1 }]
      | some totalDistance =>
        if totalDistance ≤ distancePerInterval averageSpeedKmh intervalMinutes then
          some [{ coordinates := coords.headI
                  distanceFromStart := 0
                  estimatedTime := departureTimeMinutes
                  segmentIndex := none },
                { coordinates := coords.getLastI
                  distanceFromStart := totalDistance
                  estimatedTime := departureTimeMinutes +
                    totalDistance / averageSpeedKmh * 60
                  segmentIndex := none }]
        else
          (loopIter G (toLngLat coords) totalDistance
              (distancePerInterval averageSpeedKmh intervalMinutes)
              averageSpeedKmh departureTimeMinutes 0 1
              (⌈totalDistance / distancePerInterval averageSpeedKmh intervalMinutes⌉₊ + 1)).map
            (fun mid =>
              { coordinates := coords.headI
                distanceFromStart := 0
                estimatedTime := departureTimeMinutes
                segmentIndex := some 0 } ::
              (mid ++ [{ coordinates := coords.getLastI
                         distanceFromStart := totalDistance
                         estimatedTime := departureTimeMinutes +
                           totalDistance / averageSpeedKmh * 60
                         segmentIndex := some (mid.length + 1) }]))

/-- A geometry whose `length` is the constant `L` and whose `along` always
returns the constant point `p`: the simplest healthy turf stand-in for
concrete evaluations. -/
def constGeom (L : ℚ) (p : GeoPoint) : Geometry where
  length := fun _ => some L
  along := fun _ _ => some p

/-- A geometry whose `length` call throws (models an exception reaching the
outer `catch`). -/
def failGeom : Geometry where
  length := fun _ => none
  along := fun _ _ => some (0, 0)

/-- A 111 km geometry whose `along` throws exactly at the 40 km sample
(models a single interior interpolation failure, caught by the inner
`catch`). -/
def faultGeom : Geometry where
  length := fun _ => some 111
  along := fun _ x => if x = 40 then none else some (0, 0)

/-! ## Loop lemmas -/

/-- Once the `while` guard fails the loop returns immediately, whatever fuel
is left. -/
theorem loopIter_exit (G : Geometry) (line : List GeoPoint)
    (total dpi speed dep cur : ℚ) (idx fuel : ℕ)
    (h : ¬ cur < total - dpi) :
    loopIter G line total dpi speed dep cur idx fuel = some [] := by
  cases fuel <;> simp [loopIter, h]

/-- Unfolding equation for a loop iteration whose `turf.along` call
succeeds. -/
theorem loopIter_succ_some (G : Geometry) (line : List GeoPoint)
    (total dpi speed dep cur : ℚ) (idx fuel : ℕ) (p : GeoPoint)
    (h : cur < total - dpi) (hp : G.along line (cur + dpi) = some p) :
    loopIter G line total dpi speed dep cur idx (fuel + 1) =
      (loopIter G line total dpi speed dep (cur + dpi) (idx + 1) fuel).map
        (fun rest =>
          { coordinates := (p.2, p.1)
            distanceFromStart := cur + dpi
            estimatedTime := dep + (cur + dpi) / speed * 60
            segmentIndex := some idx } :: rest) := by
  simp [loopIter, h, hp]

/-- Unfolding equation for a loop iteration whose `turf.along` call throws:
the sample is skipped and `segmentIndex` is not incremented. -/
theorem loopIter_succ_none (G : Geometry) (line : List GeoPoint)
    (total dpi speed dep cur : ℚ) (idx fuel : ℕ)
    (h : cur < total - dpi) (hp : G.along line (cur + dpi) = none) :
    loopIter G line total dpi speed dep cur idx (fuel + 1) =
      loopIter G line total dpi speed dep (cur + dpi) idx fuel := by
  simp [loopIter, h, hp]

/-- Fuel sufficiency: with a positive step, `fuel` iterations suffice as soon
as `cur + fuel * dpi` reaches `total - dpi`. -/
theorem loopIter_isSome (G : Geometry) (line : List GeoPoint)
    (total dpi speed dep : ℚ) (_hd : 0 < dpi) :
    ∀ (fuel : ℕ) (cur : ℚ) (idx : ℕ), total - dpi ≤ cur + fuel * dpi →
      (loopIter G line total dpi speed dep cur idx fuel).isSome := by
  intro fuel
  induction fuel with
  | zero =>
    intro cur idx h
    rw [loopIter_exit]
    · rfl
    · push_cast at h
      linarith
  | succ fuel ih =>
    intro cur idx h
    by_cases hc : cur < total - dpi
    · have hrec : total - dpi ≤ (cur + dpi) + fuel * dpi := by
        push_cast at h
        linarith
      rcases hp : G.along line (cur + dpi) with _ | p
      · rw [loopIter_succ_none G line total dpi speed dep cur idx fuel hc hp]
        exact ih (cur + dpi) idx hrec
      · rw [loopIter_succ_some G line total dpi speed dep cur idx fuel p hc hp]
        have := ih (cur + dpi) (idx + 1) hrec
        rcases Option.isSome_iff_exists.mp this with ⟨rest, hrest⟩
        simp [hrest]
    · rw [loopIter_exit G line total dpi speed dep cur idx (fuel + 1) hc]
      rfl

/-- Divergence: with a non-positive step the guard stays true forever, so
every fuel is exhausted — the source loop does not terminate. -/
theorem loopIter_none (G : Geometry) (line : List GeoPoint)
    (total dpi speed dep : ℚ) (hd : dpi ≤ 0) :
    ∀ (fuel : ℕ) (cur : ℚ) (idx : ℕ), cur < total - dpi →
      loopIter G line total dpi speed dep cur idx fuel = none := by
  intro fuel
  induction fuel with
  | zero =>
    intro cur idx h
    simp [loopIter, h]
  | succ fuel ih =>
    intro cur idx h
    have h' : cur + dpi < total - dpi := by linarith
    rcases hp : G.along line (cur + dpi) with _ | p
    · rw [loopIter_succ_none G line total dpi speed dep cur idx fuel h hp]
      exact ih (cur + dpi) idx h'
    · rw [loopIter_succ_some G line total dpi speed dep cur idx fuel p h hp]
      rw [ih (cur + dpi) (idx + 1) h']
      rfl

/-- Loop invariant: every waypoint emitted by the intermediate loop lies
strictly between the cursor and the total distance, carries the time formula
`dep + dist / speed * 60`, comes from a successful `along` call, the emitted
distances increase by at least one step, and the `segmentIndex` values are
contiguous starting at the entry index. -/
theorem loopIter_inv (G : Geometry) (line : List GeoPoint)
    (total dpi speed dep : ℚ) (hd : 0 < dpi) :
    ∀ (fuel : ℕ) (cur : ℚ) (idx : ℕ) (L : List Waypoint),
      loopIter G line total dpi speed dep cur idx fuel = some L →
      (∀ w ∈ L, cur + dpi ≤ w.distanceFromStart ∧ w.distanceFromStart < total ∧
        w.estimatedTime = dep + w.distanceFromStart / speed * 60 ∧
        ∃ p, G.along line w.distanceFromStart = some p ∧ w.coordinates = (p.2, p.1)) ∧
      List.Chain' (fun a b => a.distanceFromStart + dpi ≤ b.distanceFromStart) L ∧
      L.map Waypoint.segmentIndex = (List.range L.length).map (fun j => some (idx + j)) := by
  intro fuel
  induction fuel with
  | zero =>
    intro cur idx L hL
    by_cases hc : cur < total - dpi
    · simp [loopIter, hc] at hL
    · rw [loopIter_exit G line total dpi speed dep cur idx 0 hc] at hL
      cases hL
      simp
  | succ fuel ih =>
    intro cur idx L hL
    by_cases hc : cur < total - dpi
    · rcases hp : G.along line (cur + dpi) with _ | p
      · rw [loopIter_succ_none G line total dpi speed dep cur idx fuel hc hp] at hL
        obtain ⟨hmem, hchain, hidx⟩ := ih (cur + dpi) idx L hL
        refine ⟨fun w hw => ?_, hchain, hidx⟩
        obtain ⟨h1, h2, h3, h4⟩ := hmem w hw
        exact ⟨by linarith, h2, h3, h4⟩
      · rw [loopIter_succ_some G line total dpi speed dep cur idx fuel p hc hp] at hL
        rcases Option.map_eq_some'.mp hL with ⟨rest, hrest, hcons⟩
        obtain ⟨hmem, hchain, hidx⟩ := ih (cur + dpi) (idx + 1) rest hrest
        subst hcons
        refine ⟨?_, ?_, ?_⟩
        · intro w hw
          rcases List.mem_cons.mp hw with hw | hw
          · subst hw
            refine ⟨le_refl _, by linarith, rfl, p, hp, rfl⟩
          · obtain ⟨h1, h2, h3, h4⟩ := hmem w hw
            exact ⟨by linarith, h2, h3, h4⟩
        · rw [List.chain'_cons']
          refine ⟨fun b hb => ?_, hchain⟩
          have hbmem : b ∈ rest := List.mem_of_mem_head? hb
          have := (hmem b hbmem).1
          simpa using this
        · simp only [List.map_cons, hidx, List.length_cons, List.range_succ_eq_map,
            List.map_map]
          congr 1
          apply List.map_congr_left
          intro a _
          simp only [Function.comp_apply]
          congr 1
          omega
    · rw [loopIter_exit G line total dpi speed dep cur idx (fuel + 1) hc] at hL
      cases hL
      simp

/-! ## Branch equations for calculateRouteSegments -/

/-- Null input branch: `!routeCoordinates` yields the empty sequence. -/
theorem calc_null (G : Geometry) (i s dep : ℚ) :
    calculateRouteSegments G none i s dep = some [] := rfl

/-- Degenerate branch: fewer than 2 points yields the empty sequence. -/
theorem calc_short_input (G : Geometry) (coords : List GeoPoint) (i s dep : ℚ)
    (h : coords.length < 2) :
    calculateRouteSegments G (some coords) i s dep = some [] := by
  simp [calculateRouteSegments, h]

/-- Outer-catch branch: if `turf.length` throws, the fallback pair is
returned (both endpoints at distance 0 and time `departureTimeMinutes`). -/
theorem calc_fallback (G : Geometry) (coords : List GeoPoint) (i s dep : ℚ)
    (h2 : 2 ≤ coords.length) (hlen : G.length (toLngLat coords) = none) :
    calculateRouteSegments G (some coords) i s dep =
      some [⟨coords.headI, 0, dep, some 0⟩, ⟨coords.getLastI, 0, dep, some 1⟩] := by
  simp [calculateRouteSegments, Nat.not_lt.mpr h2, hlen]

/-- Short-route branch: `totalDistance ≤ distancePerInterval` yields exactly
the start/end pair, without `segmentIndex` fields. -/
theorem calc_short_route (G : Geometry) (coords : List GeoPoint) (i s dep total : ℚ)
    (h2 : 2 ≤ coords.length) (hlen : G.length (toLngLat coords) = some total)
    (hshort : total ≤ distancePerInterval s i) :
    calculateRouteSegments G (some coords) i s dep =
      some [⟨coords.headI, 0, dep, none⟩,
            ⟨coords.getLastI, total, dep + total / s * 60, none⟩] := by
  simp [calculateRouteSegments, Nat.not_lt.mpr h2, hlen, hshort]

/-- General branch: start waypoint, intermediate loop, end waypoint. -/
theorem calc_general (G : Geometry) (coords : List GeoPoint) (i s dep total : ℚ)
    (h2 : 2 ≤ coords.length) (hlen : G.length (toLngLat coords) = some total)
    (hgen : distancePerInterval s i < total) :
    calculateRouteSegments G (some coords) i s dep =
      (loopIter G (toLngLat coords) total (distancePerInterval s i) s dep 0 1
          (⌈total / distancePerInterval s i⌉₊ + 1)).map
        (fun mid =>
          ⟨coords.headI, 0, dep, some 0⟩ ::
            (mid ++ [⟨coords.getLastI, total, dep + total / s * 60,
              some (mid.length + 1)⟩])) := by
  simp [calculateRouteSegments, Nat.not_lt.mpr h2, hlen, not_le.mpr hgen]

/-- In the general branch, a returned (terminating) run forces a positive
step: with `dpi ≤ 0 < total - dpi` the loop diverges. -/
theorem calc_general_dpi_pos (G : Geometry) (coords : List GeoPoint)
    (i s dep total : ℚ) (ws : List Waypoint)
    (h2 : 2 ≤ coords.length) (hlen : G.length (toLngLat coords) = some total)
    (hgen : distancePerInterval s i < total)
    (hres : calculateRouteSegments G (some coords) i s dep = some ws) :
    0 < distancePerInterval s i := by
  by_contra hd
  push_neg at hd
  rw [calc_general G coords i s dep total h2 hlen hgen,
    loopIter_none G (toLngLat coords) total (distancePerInterval s i) s dep hd _ 0 1
      (by linarith)] at hres
  cases hres

/-- The fuel supplied by `calculateRouteSegments` is sufficient whenever the
step is positive, so the general branch returns a list. -/
theorem calc_general_some (G : Geometry) (coords : List GeoPoint)
    (i s dep total : ℚ)
    (h2 : 2 ≤ coords.length) (hlen : G.length (toLngLat coords) = some total)
    (hgen : distancePerInterval s i < total)
    (hd : 0 < distancePerInterval s i) :
    ∃ mid : List Waypoint,
      loopIter G (toLngLat coords) total (distancePerInterval s i) s dep 0 1
        (⌈total / distancePerInterval s i⌉₊ + 1) = some mid ∧
      calculateRouteSegments G (some coords) i s dep =
        some (⟨coords.headI, 0, dep, some 0⟩ ::
          (mid ++ [⟨coords.getLastI, total, dep + total / s * 60,
            some (mid.length + 1)⟩])) := by
  have hceil : total / distancePerInterval s i ≤
      (⌈total / distancePerInterval s i⌉₊ : ℚ) := Nat.le_ceil _
  rw [div_le_iff₀ hd] at hceil
  have hsuff : total - distancePerInterval s i ≤
      0 + (((⌈total / distancePerInterval s i⌉₊ + 1 : ℕ)) : ℚ) * distancePerInterval s i := by
    push_cast
    linarith
  have := loopIter_isSome G (toLngLat coords) total (distancePerInterval s i) s dep hd
    (⌈total / distancePerInterval s i⌉₊ + 1) 0 1 hsuff
  rcases Option.isSome_iff_exists.mp this with ⟨mid, hmid⟩
  refine ⟨mid, hmid, ?_⟩
  rw [calc_general G coords i s dep total h2 hlen hgen, hmid]
  rfl

/-- Index bookkeeping: the start index 0, the loop indices `1, …, n`, and
the end index `n + 1` together form the contiguous range `0, …, n + 1`. -/
theorem indices_contiguous (n m : ℕ) (hm : m = n + 2) :
    some 0 :: (List.range n).map (fun j => some (1 + j)) ++ [some (n + 1)] =
      (List.range m).map some := by
  subst hm
  rw [show n + 2 = (n + 1) + 1 from rfl, List.range_succ, List.map_append,
    List.range_succ_eq_map, List.map_cons, List.map_map]
  simp only [List.map_singleton, List.cons_append]
  congr 2
  apply List.map_congr_left
  intro a _
  simp only [Function.comp_apply]
  congr 1
  omega

/-- Monotonicity of start / intermediate / end waypoint sequences: with a
nonnegative step and nonnegative total, distances are non-decreasing and
bounded by `total`, and times follow suit through the monotone formula
`dep + dist / s * 60`. -/
theorem ws_monotone (s dep total dpi : ℚ) (a b : GeoPoint) (o₁ o₂ : Option ℕ)
    (mid : List Waypoint)
    (hs : 0 < s) (htot : 0 ≤ total) (hdpi : 0 ≤ dpi)
    (hmem : ∀ w ∈ mid, dpi ≤ w.distanceFromStart ∧ w.distanceFromStart < total ∧
      w.estimatedTime = dep + w.distanceFromStart / s * 60)
    (hchain : List.Chain'
      (fun x y => x.distanceFromStart + dpi ≤ y.distanceFromStart) mid) :
    List.Chain' (· ≤ ·) (((⟨a, 0, dep, o₁⟩ : Waypoint) :: (mid ++
        [⟨b, total, dep + total / s * 60, o₂⟩])).map Waypoint.distanceFromStart) ∧
    (∀ w ∈ (⟨a, 0, dep, o₁⟩ : Waypoint) :: (mid ++
        [⟨b, total, dep + total / s * 60, o₂⟩]),
      w.distanceFromStart ≤ total) ∧
    List.Chain' (· ≤ ·) (((⟨a, 0, dep, o₁⟩ : Waypoint) :: (mid ++
        [⟨b, total, dep + total / s * 60, o₂⟩])).map Waypoint.estimatedTime) ∧
    (∀ w ∈ (⟨a, 0, dep, o₁⟩ : Waypoint) :: (mid ++
        [⟨b, total, dep + total / s * 60, o₂⟩]),
      dep ≤ w.estimatedTime) := by
  have hdistchain : List.Chain' (· ≤ ·)
      (((⟨a, 0, dep, o₁⟩ : Waypoint) :: (mid ++
        [⟨b, total, dep + total / s * 60, o₂⟩])).map Waypoint.distanceFromStart) := by
    simp only [List.map_cons, List.map_append, List.map_singleton]
    rw [List.chain'_cons']
    constructor
    · intro y hy
      have hy' := List.mem_of_mem_head? hy
      rcases List.mem_append.mp hy' with hy' | hy'
      · rcases List.mem_map.mp hy' with ⟨w, hw, rfl⟩
        have := (hmem w hw).1
        show (0 : ℚ) ≤ w.distanceFromStart
        linarith
      · rcases List.mem_singleton.mp hy' with rfl
        exact htot
    · rw [List.chain'_append]
      refine ⟨?_, List.chain'_singleton _, ?_⟩
      · rw [List.chain'_map]
        exact hchain.imp (fun x y h => by linarith)
      · intro x hx y hy
        rcases List.mem_singleton.mp (List.mem_of_mem_head? hy) with rfl
        have hx' := List.mem_of_mem_getLast? hx
        rcases List.mem_map.mp hx' with ⟨w, hw, rfl⟩
        exact ((hmem w hw).2.1).le
  have hdistle : ∀ w ∈ (⟨a, 0, dep, o₁⟩ : Waypoint) :: (mid ++
      [⟨b, total, dep + total / s * 60, o₂⟩]), w.distanceFromStart ≤ total := by
    intro w hw
    rcases List.mem_cons.mp hw with rfl | hw
    · exact htot
    · rcases List.mem_append.mp hw with hw | hw
      · exact ((hmem w hw).2.1).le
      · rcases List.mem_singleton.mp hw with rfl
        exact le_refl _
  have hdistnn : ∀ w ∈ (⟨a, 0, dep, o₁⟩ : Waypoint) :: (mid ++
      [⟨b, total, dep + total / s * 60, o₂⟩]), 0 ≤ w.distanceFromStart := by
    intro w hw
    rcases List.mem_cons.mp hw with rfl | hw
    · exact le_refl _
    · rcases List.mem_append.mp hw with hw | hw
      · have := (hmem w hw).1
        linarith
      · rcases List.mem_singleton.mp hw with rfl
        exact htot
  have htime : ∀ w ∈ (⟨a, 0, dep, o₁⟩ : Waypoint) :: (mid ++
      [⟨b, total, dep + total / s * 60, o₂⟩]),
      w.estimatedTime = dep + w.distanceFromStart / s * 60 := by
    intro w hw
    rcases List.mem_cons.mp hw with rfl | hw
    · simp
    · rcases List.mem_append.mp hw with hw | hw
      · exact (hmem w hw).2.2
      · rcases List.mem_singleton.mp hw with rfl
        rfl
  have hmapeq : ((⟨a, 0, dep, o₁⟩ : Waypoint) :: (mid ++
      [⟨b, total, dep + total / s * 60, o₂⟩])).map Waypoint.estimatedTime =
      (((⟨a, 0, dep, o₁⟩ : Waypoint) :: (mid ++
        [⟨b, total, dep + total / s * 60, o₂⟩])).map
          Waypoint.distanceFromStart).map (fun x => dep + x / s * 60) := by
    rw [List.map_map]
    exact List.map_congr_left (fun w hw => htime w hw)
  refine ⟨hdistchain, hdistle, ?_, ?_⟩
  · rw [hmapeq, List.chain'_map]
    exact List.Chain'.imp (fun x y h => by gcongr) hdistchain
  · intro w hw
    rw [htime w hw]
    have h0 := hdistnn w hw
    have : (0 : ℚ) ≤ w.distanceFromStart / s * 60 :=
      mul_nonneg (div_nonneg h0 hs.le) (by norm_num)
    linarith

/-! ## Claims -/

/-- Claim C1: for every polyline with at least 2 points and positive
`intervalMinutes` and `averageSpeedKmh`, `calculateRouteSegments` returns a
non-empty sequence whose first waypoint is the polyline's first point at
`distanceFromStart = 0` and `estimatedTime = departureTimeMinutes`, and
whose last waypoint is the polyline's last point at `distanceFromStart =
totalDistance` (exactly, in rational arithmetic). -/
theorem C1_endpoints (G : Geometry) (coords : List GeoPoint)
    (intervalMinutes averageSpeedKmh departureTimeMinutes total : ℚ)
    (h2 : 2 ≤ coords.length)
    (hi : 0 < intervalMinutes) (hs : 0 < averageSpeedKmh)
    (hlen : G.length (toLngLat coords) = some total) :
    ∃ ws : List Waypoint,
      calculateRouteSegments G (some coords) intervalMinutes averageSpeedKmh
        departureTimeMinutes = some ws ∧
      ws ≠ [] ∧
      (ws.map fun w => (w.coordinates, w.distanceFromStart, w.estimatedTime)).head? =
        some (coords.headI, 0, departureTimeMinutes) ∧
      (ws.map fun w => (w.coordinates, w.distanceFromStart)).getLast? =
        some (coords.getLastI, total) := by
  by_cases hshort : total ≤ distancePerInterval averageSpeedKmh intervalMinutes
  · exact ⟨_, calc_short_route G coords intervalMinutes averageSpeedKmh
      departureTimeMinutes total h2 hlen hshort, by simp, by simp, by simp⟩
  · push_neg at hshort
    have hd : 0 < distancePerInterval averageSpeedKmh intervalMinutes :=
      div_pos (mul_pos hs hi) (by norm_num)
    obtain ⟨mid, hmid, hres⟩ := calc_general_some G coords intervalMinutes
      averageSpeedKmh departureTimeMinutes total h2 hlen hshort hd
    refine ⟨_, hres, by simp, by simp, ?_⟩
    rw [List.map_cons, List.map_append, List.map_singleton, ← List.cons_append,
      List.getLast?_concat]

/-- Witness for C1: the general-case 111 km run has the required endpoints. -/
theorem C1_endpoints_witness :
    2 ≤ ([((0 : ℚ), (0 : ℚ)), ((0 : ℚ), (1 : ℚ))] : List GeoPoint).length ∧
    ∃ ws : List Waypoint,
      calculateRouteSegments (constGeom 111 (0, 0))
        (some [((0 : ℚ), (0 : ℚ)), ((0 : ℚ), (1 : ℚ))]) 30 80 0 = some ws ∧
      ws ≠ [] ∧
      (ws.map fun w => (w.coordinates, w.distanceFromStart, w.estimatedTime)).head? =
        some (([((0 : ℚ), (0 : ℚ)), ((0 : ℚ), (1 : ℚ))] : List GeoPoint).headI, 0, 0) ∧
      (ws.map fun w => (w.coordinates, w.distanceFromStart)).getLast? =
        some (([((0 : ℚ), (0 : ℚ)), ((0 : ℚ), (1 : ℚ))] : List GeoPoint).getLastI, 111) :=
  ⟨by norm_num,
   C1_endpoints (constGeom 111 (0, 0)) [(0, 0), (0, 1)] 30 80 0 111
     (by norm_num) (by norm_num) (by norm_num) rfl⟩

/-- Claim C7: when `turf.along` fails at interior samples, the computation
is not aborted: the sequence is still produced, the start and end waypoints
are present and correct, the `segmentIndex` values are still contiguous from
0, and every retained interior waypoint comes from a successful `along`
call (faulty samples are absent). -/
theorem C7_skip_failed_samples (G : Geometry) (coords : List GeoPoint)
    (intervalMinutes averageSpeedKmh departureTimeMinutes total : ℚ)
    (h2 : 2 ≤ coords.length)
    (hi : 0 < intervalMinutes) (hs : 0 < averageSpeedKmh)
    (hlen : G.length (toLngLat coords) = some total)
    (hgen : distancePerInterval averageSpeedKmh intervalMinutes < total) :
    ∃ ws : List Waypoint,
      calculateRouteSegments G (some coords) intervalMinutes averageSpeedKmh
        departureTimeMinutes = some ws ∧
      ws.head? = some ⟨coords.headI, 0, departureTimeMinutes, some 0⟩ ∧
      ws.getLast? = some ⟨coords.getLastI, total,
        departureTimeMinutes + total / averageSpeedKmh * 60, some (ws.length - 1)⟩ ∧
      ws.map Waypoint.segmentIndex = (List.range ws.length).map some ∧
      ∀ w ∈ (ws.drop 1).dropLast, ∃ p,
        G.along (toLngLat coords) w.distanceFromStart = some p ∧
          w.coordinates = (p.2, p.1) := by
  have hd : 0 < distancePerInterval averageSpeedKmh intervalMinutes :=
    div_pos (mul_pos hs hi) (by norm_num)
  obtain ⟨mid, hmid, hres⟩ := calc_general_some G coords intervalMinutes
    averageSpeedKmh departureTimeMinutes total h2 hlen hgen hd
  obtain ⟨hmem, hchain, hidx⟩ := loopIter_inv G (toLngLat coords) total
    (distancePerInterval averageSpeedKmh intervalMinutes) averageSpeedKmh
    departureTimeMinutes hd _ 0 1 mid hmid
  refine ⟨_, hres, rfl, ?_, ?_, ?_⟩
  · rw [← List.cons_append, List.getLast?_concat]
    simp
  · rw [List.map_cons, List.map_append, List.map_singleton, hidx]
    exact indices_contiguous mid.length _ (by simp)
  · intro w hw
    have hw' : w ∈ mid := by simpa using hw
    exact (hmem w hw').2.2.2

/-- Witness for C7: with `along` failing exactly at the 40 km sample of a
111 km route, the 40 km waypoint is skipped, start and end survive and the
indices 0, 1, 2 remain contiguous. -/
theorem C7_skip_failed_samples_witness :
    faultGeom.along (toLngLat [((0 : ℚ), (0 : ℚ)), ((0 : ℚ), (1 : ℚ))]) 40 = none ∧
    (∃ ws : List Waypoint,
      calculateRouteSegments faultGeom
        (some [((0 : ℚ), (0 : ℚ)), ((0 : ℚ), (1 : ℚ))]) 30 80 0 = some ws ∧
      ws.head? = some ⟨([((0 : ℚ), (0 : ℚ)), ((0 : ℚ), (1 : ℚ))] : List GeoPoint).headI,
        0, 0, some 0⟩ ∧
      ws.getLast? = some ⟨([((0 : ℚ), (0 : ℚ)), ((0 : ℚ), (1 : ℚ))] : List GeoPoint).getLastI,
        111, 0 + 111 / 80 * 60, some (ws.length - 1)⟩ ∧
      ws.map Waypoint.segmentIndex = (List.range ws.length).map some ∧
      ∀ w ∈ (ws.drop 1).dropLast, ∃ p,
        faultGeom.along (toLngLat [((0 : ℚ), (0 : ℚ)), ((0 : ℚ), (1 : ℚ))])
            w.distanceFromStart = some p ∧
          w.coordinates = (p.2, p.1)) :=
  ⟨by norm_num [faultGeom],
   C7_skip_failed_samples faultGeom [(0, 0), (0, 1)] 30 80 0 111
     (by norm_num) (by norm_num) (by norm_num) rfl
     (by norm_num [distancePerInterval])⟩

/-- Claim C3: for every polyline with at least 2 points whose total length is
at most `distancePerInterval = averageSpeedKmh * intervalMinutes / 60`,
`calculateRouteSegments` returns exactly two waypoints: the start at
distance 0 and time `departureTimeMinutes`, and the end at distance
`totalDistance` and time `departureTimeMinutes + totalDistance /
averageSpeedKmh * 60`. -/
theorem C3_short_route_pair (G : Geometry) (coords : List GeoPoint)
    (intervalMinutes averageSpeedKmh departureTimeMinutes total : ℚ)
    (h2 : 2 ≤ coords.length)
    (hlen : G.length (toLngLat coords) = some total)
    (hshort : total ≤ distancePerInterval averageSpeedKmh intervalMinutes) :
    calculateRouteSegments G (some coords) intervalMinutes averageSpeedKmh
      departureTimeMinutes =
      some [⟨coords.headI, 0, departureTimeMinutes, none⟩,
            ⟨coords.getLastI, total,
             departureTimeMinutes + total / averageSpeedKmh * 60, none⟩] :=
  calc_short_route G coords intervalMinutes averageSpeedKmh departureTimeMinutes
    total h2 hlen hshort

/-- Witness for C3: a 10 km route at 80 km/h with a 30-minute interval
(40 km per interval) yields exactly (0 km, t = 0) and (10 km, t = 7.5 min). -/
theorem C3_short_route_pair_witness :
    calculateRouteSegments (constGeom 10 (0, 0))
        (some [((0 : ℚ), (0 : ℚ)), ((0 : ℚ), (1 : ℚ))]) 30 80 0 =
      some [⟨(0, 0), 0, 0, none⟩, ⟨(0, 1), 10, 15/2, none⟩] := by
  rw [C3_short_route_pair (constGeom 10 (0, 0)) [(0, 0), (0, 1)] 30 80 0 10
    (by norm_num) rfl (by norm_num [distancePerInterval])]
  norm_num [List.getLastI]

/-- Claim C4 counterexample: passing `intervalMinutes = 0` does not behave
like passing `intervalMinutes = 30`: the defaults apply only to omitted
arguments, and with a zero interval the sampling loop never terminates
(modelled by `none`), while with 30 the short-route pair is returned. -/
theorem C4_counterexample :
    calculateRouteSegments (constGeom 10 (0, 0))
        (some [((0 : ℚ), (0 : ℚ)), ((0 : ℚ), (1 : ℚ))]) 0 80 0 ≠
      calculateRouteSegments (constGeom 10 (0, 0))
        (some [((0 : ℚ), (0 : ℚ)), ((0 : ℚ), (1 : ℚ))]) 30 80 0 := by
  have h0 : calculateRouteSegments (constGeom 10 (0, 0))
      (some [((0 : ℚ), (0 : ℚ)), ((0 : ℚ), (1 : ℚ))]) 0 80 0 = none := by
    rw [calc_general (constGeom 10 (0, 0)) [(0, 0), (0, 1)] 0 80 0 10
      (by norm_num) rfl (by norm_num [distancePerInterval])]
    rw [loopIter_none (constGeom 10 (0, 0)) _ 10 _ 80 0
      (by norm_num [distancePerInterval]) _ 0 1 (by norm_num [distancePerInterval])]
    rfl
  have h30 : calculateRouteSegments (constGeom 10 (0, 0))
      (some [((0 : ℚ), (0 : ℚ)), ((0 : ℚ), (1 : ℚ))]) 30 80 0 =
      some [⟨(0, 0), 0, 0, none⟩, ⟨(0, 1), 10, 15/2, none⟩] := by
    rw [calc_short_route (constGeom 10 (0, 0)) [(0, 0), (0, 1)] 30 80 0 10
      (by norm_num) rfl (by norm_num [distancePerInterval])]
    norm_num [List.getLastI]
  rw [h0, h30]
  simp

/-- Claim C4 amended: zero or negative `intervalMinutes` (or
`averageSpeedKmh`) is not replaced by the 30 / 80 defaults — those apply
only to omitted arguments.  The supplied value is used as-is: whenever it
makes `distancePerInterval` non-positive while the route is longer than
`distancePerInterval`, the intermediate-sample loop never terminates
(modelled as `none`). -/
theorem C4_amended (G : Geometry) (coords : List GeoPoint)
    (intervalMinutes averageSpeedKmh departureTimeMinutes total : ℚ)
    (h2 : 2 ≤ coords.length)
    (hlen : G.length (toLngLat coords) = some total)
    (hd : distancePerInterval averageSpeedKmh intervalMinutes ≤ 0)
    (htot : 0 < total) :
    calculateRouteSegments G (some coords) intervalMinutes averageSpeedKmh
      departureTimeMinutes = none := by
  rw [calc_general G coords intervalMinutes averageSpeedKmh departureTimeMinutes
    total h2 hlen (by linarith)]
  rw [loopIter_none G (toLngLat coords) total
    (distancePerInterval averageSpeedKmh intervalMinutes) averageSpeedKmh
    departureTimeMinutes hd _ 0 1 (by linarith)]
  rfl

/-- Witness for C4 amended: zero interval on a 10 km route diverges. -/
theorem C4_amended_witness :
    calculateRouteSegments (constGeom 10 (0, 0))
        (some [((0 : ℚ), (0 : ℚ)), ((0 : ℚ), (1 : ℚ))]) 0 80 0 = none :=
  C4_amended (constGeom 10 (0, 0)) [(0, 0), (0, 1)] 0 80 0 10 (by norm_num) rfl
    (by norm_num [distancePerInterval]) (by norm_num)

/-- Claim C8: if an unexpected internal error occurs (here: `turf.length`
throwing, the failure the outer `try` guards), `calculateRouteSegments`
propagates no exception and returns exactly the two endpoints, both at
`distanceFromStart = 0` and `estimatedTime = departureTimeMinutes`, with
`segmentIndex` 0 and 1. -/
theorem C8_error_fallback (G : Geometry) (coords : List GeoPoint)
    (intervalMinutes averageSpeedKmh departureTimeMinutes : ℚ)
    (h2 : 2 ≤ coords.length)
    (hfail : G.length (toLngLat coords) = none) :
    calculateRouteSegments G (some coords) intervalMinutes averageSpeedKmh
      departureTimeMinutes =
      some [⟨coords.headI, 0, departureTimeMinutes, some 0⟩,
            ⟨coords.getLastI, 0, departureTimeMinutes, some 1⟩] :=
  calc_fallback G coords intervalMinutes averageSpeedKmh departureTimeMinutes
    h2 hfail

/-- Witness for C8: a geometry whose `length` throws produces the two-point
fallback. -/
theorem C8_error_fallback_witness :
    calculateRouteSegments failGeom
        (some [((0 : ℚ), (0 : ℚ)), ((0 : ℚ), (1 : ℚ))]) 30 80 0 =
      some [⟨(0, 0), 0, 0, some 0⟩, ⟨(0, 1), 0, 0, some 1⟩] := by
  rw [C8_error_fallback failGeom [(0, 0), (0, 1)] 30 80 0 (by norm_num) rfl]
  norm_num [List.getLastI]

/-- Claim C9: for every polyline with fewer than 2 points — absent (`null`),
empty, or single-point — `calculateRouteSegments` returns the empty
sequence, without raising an error. -/
theorem C9_degenerate_empty (G : Geometry) (routeCoordinates : Option (List GeoPoint))
    (intervalMinutes averageSpeedKmh departureTimeMinutes : ℚ)
    (h : ∀ coords, routeCoordinates = some coords → coords.length < 2) :
    calculateRouteSegments G routeCoordinates intervalMinutes averageSpeedKmh
      departureTimeMinutes = some [] := by
  cases routeCoordinates with
  | none => rfl
  | some coords =>
    exact calc_short_input G coords intervalMinutes averageSpeedKmh
      departureTimeMinutes (h coords rfl)

/-- Witness for C9: the `null`, empty and single-point inputs each return
the empty sequence. -/
theorem C9_degenerate_empty_witness :
    calculateRouteSegments (constGeom 10 (0, 0)) none 30 80 0 = some [] ∧
    calculateRouteSegments (constGeom 10 (0, 0)) (some []) 30 80 0 = some [] ∧
    calculateRouteSegments (constGeom 10 (0, 0))
      (some [((0 : ℚ), (0 : ℚ))]) 30 80 0 = some [] := by
  refine ⟨?_, ?_, ?_⟩
  · exact C9_degenerate_empty (constGeom 10 (0, 0)) none 30 80 0
      (by intro c hc; cases hc)
  · exact C9_degenerate_empty (constGeom 10 (0, 0)) (some []) 30 80 0
      (by intro c hc; injection hc with hh; subst hh; norm_num)
  · exact C9_degenerate_empty (constGeom 10 (0, 0)) (some [(0, 0)]) 30 80 0
      (by intro c hc; injection hc with hh; subst hh; norm_num)

/-- Claim C10: whenever `averageSpeedKmh * intervalMinutes > 0` (so
`distancePerInterval > 0`), `calculateRouteSegments` terminates (its result
is `some`), and the intermediate loop from cursor 0 needs at most
`⌈totalDistance / distancePerInterval⌉` iterations of fuel; positivity is
necessary — with `distancePerInterval = 0` and distance remaining, the loop
exhausts every fuel, i.e. never terminates. -/
theorem C10_termination (G : Geometry) :
    (∀ (routeCoordinates : Option (List GeoPoint))
        (intervalMinutes averageSpeedKmh departureTimeMinutes : ℚ),
        0 < distancePerInterval averageSpeedKmh intervalMinutes →
        (calculateRouteSegments G routeCoordinates intervalMinutes
          averageSpeedKmh departureTimeMinutes).isSome) ∧
    (∀ (line : List GeoPoint) (total dpi speed dep : ℚ) (idx : ℕ), 0 < dpi →
        (loopIter G line total dpi speed dep 0 idx ⌈total / dpi⌉₊).isSome) ∧
    (∀ (line : List GeoPoint) (total speed dep cur : ℚ) (idx fuel : ℕ),
        cur < total →
        loopIter G line total 0 speed dep cur idx fuel = none) := by
  refine ⟨?_, ?_, ?_⟩
  · intro routeCoordinates i s dep hd
    cases routeCoordinates with
    | none => rfl
    | some coords =>
      by_cases hlt : coords.length < 2
      · rw [calc_short_input G coords i s dep hlt]; rfl
      · have h2 : 2 ≤ coords.length := Nat.not_lt.mp hlt
        rcases hlen : G.length (toLngLat coords) with _ | total
        · rw [calc_fallback G coords i s dep h2 hlen]; rfl
        · by_cases hshort : total ≤ distancePerInterval s i
          · rw [calc_short_route G coords i s dep total h2 hlen hshort]; rfl
          · push_neg at hshort
            obtain ⟨mid, _, hres⟩ :=
              calc_general_some G coords i s dep total h2 hlen hshort hd
            rw [hres]; rfl
  · intro line total dpi speed dep idx hd
    apply loopIter_isSome G line total dpi speed dep hd
    have hceil : total / dpi ≤ (⌈total / dpi⌉₊ : ℚ) := Nat.le_ceil _
    rw [div_le_iff₀ hd] at hceil
    linarith
  · intro line total speed dep cur idx fuel hcur
    exact loopIter_none G line total 0 speed dep le_rfl fuel cur idx
      (by linarith)

/-- Witness for C10: with positive parameters the 10 km run returns a
value; with a zero step the loop at any fuel returns `none`. -/
theorem C10_termination_witness :
    (calculateRouteSegments (constGeom 10 (0, 0))
      (some [((0 : ℚ), (0 : ℚ)), ((0 : ℚ), (1 : ℚ))]) 30 80 0).isSome ∧
    loopIter (constGeom 10 (0, 0)) [((0 : ℚ), (0 : ℚ))] 10 0 80 0 0 1 5 = none := by
  constructor
  · exact (C10_termination (constGeom 10 (0, 0))).1
      (some [(0, 0), (0, 1)]) 30 80 0 (by norm_num [distancePerInterval])
  · exact (C10_termination (constGeom 10 (0, 0))).2.2
      [(0, 0)] 10 80 0 0 1 5 (by norm_num)

/-- Claim C2 counterexample: the claim quantifies over every input, but with
negative `averageSpeedKmh` and `intervalMinutes` (which the code does not
replace by defaults) the short-route branch returns a sequence whose
`estimatedTime` decreases and drops below the departure offset. -/
theorem C2_counterexample :
    ∃ ws : List Waypoint,
      calculateRouteSegments (constGeom 10 (0, 0))
        (some [((0 : ℚ), (0 : ℚ)), ((0 : ℚ), (1 : ℚ))]) (-30) (-80) 0 = some ws ∧
      ¬ List.Chain' (· ≤ ·) (ws.map Waypoint.estimatedTime) ∧
      ∃ w ∈ ws, w.estimatedTime < 0 := by
  refine ⟨_, calc_short_route (constGeom 10 (0, 0)) [(0, 0), (0, 1)] (-30) (-80) 0 10
    (by norm_num) rfl (by norm_num [distancePerInterval]), ?_, ?_⟩
  · simp only [List.map_cons, List.map_nil, List.chain'_cons, List.chain'_singleton]
    norm_num
  · exact ⟨⟨([((0 : ℚ), (0 : ℚ)), ((0 : ℚ), (1 : ℚ))] : List GeoPoint).getLastI, 10,
      0 + 10 / (-80) * 60, none⟩, by simp, by norm_num⟩

/-- Claim C2 amended: for runs with positive `averageSpeedKmh` (and the
geometric fact that the route length is nonnegative), every returned
sequence has non-decreasing `distanceFromStart` bounded by the total
length, and non-decreasing `estimatedTime` never preceding the departure
offset. -/
theorem C2_amended_monotone (G : Geometry) (coords : List GeoPoint)
    (intervalMinutes averageSpeedKmh departureTimeMinutes total : ℚ)
    (ws : List Waypoint)
    (hs : 0 < averageSpeedKmh) (htot : 0 ≤ total)
    (hlen : G.length (toLngLat coords) = some total)
    (hres : calculateRouteSegments G (some coords) intervalMinutes
      averageSpeedKmh departureTimeMinutes = some ws) :
    List.Chain' (· ≤ ·) (ws.map Waypoint.distanceFromStart) ∧
    (∀ w ∈ ws, w.distanceFromStart ≤ total) ∧
    List.Chain' (· ≤ ·) (ws.map Waypoint.estimatedTime) ∧
    (∀ w ∈ ws, departureTimeMinutes ≤ w.estimatedTime) := by
  by_cases hlt : coords.length < 2
  · rw [calc_short_input G coords intervalMinutes averageSpeedKmh
      departureTimeMinutes hlt] at hres
    cases hres
    simp
  · have h2 : 2 ≤ coords.length := Nat.not_lt.mp hlt
    by_cases hshort : total ≤ distancePerInterval averageSpeedKmh intervalMinutes
    · rw [calc_short_route G coords intervalMinutes averageSpeedKmh
        departureTimeMinutes total h2 hlen hshort] at hres
      cases hres
      exact ws_monotone averageSpeedKmh departureTimeMinutes total
        (distancePerInterval averageSpeedKmh intervalMinutes)
        coords.headI coords.getLastI none none [] hs htot (le_trans htot hshort)
        (fun w hw => absurd hw (List.not_mem_nil w)) List.chain'_nil
    · push_neg at hshort
      have hd := calc_general_dpi_pos G coords intervalMinutes averageSpeedKmh
        departureTimeMinutes total ws h2 hlen hshort hres
      rw [calc_general G coords intervalMinutes averageSpeedKmh
        departureTimeMinutes total h2 hlen hshort] at hres
      rcases Option.map_eq_some'.mp hres with ⟨mid, hmid, hws⟩
      obtain ⟨hmem, hchain, -⟩ := loopIter_inv G (toLngLat coords) total
        (distancePerInterval averageSpeedKmh intervalMinutes) averageSpeedKmh
        departureTimeMinutes hd _ 0 1 mid hmid
      subst hws
      exact ws_monotone averageSpeedKmh departureTimeMinutes total
        (distancePerInterval averageSpeedKmh intervalMinutes)
        coords.headI coords.getLastI (some 0) (some (mid.length + 1)) mid
        hs htot hd.le
        (fun w hw => ⟨by linarith [(hmem w hw).1], (hmem w hw).2.1,
          (hmem w hw).2.2.1⟩)
        hchain

/-- Witness for C2 amended: the concrete 111 km general-case run is
monotone. -/
theorem C2_amended_monotone_witness :
    List.Chain' (· ≤ ·)
      (([⟨((0 : ℚ), (0 : ℚ)), 0, 0, some 0⟩, ⟨((0 : ℚ), (0 : ℚ)), 40, 30, some 1⟩,
         ⟨((0 : ℚ), (0 : ℚ)), 80, 60, some 2⟩,
         ⟨((0 : ℚ), (1 : ℚ)), 111, 333/4, some 3⟩] : List Waypoint).map
        Waypoint.distanceFromStart) ∧
    (∀ w ∈ ([⟨((0 : ℚ), (0 : ℚ)), 0, 0, some 0⟩, ⟨((0 : ℚ), (0 : ℚ)), 40, 30, some 1⟩,
         ⟨((0 : ℚ), (0 : ℚ)), 80, 60, some 2⟩,
         ⟨((0 : ℚ), (1 : ℚ)), 111, 333/4, some 3⟩] : List Waypoint),
      w.distanceFromStart ≤ 111) ∧
    List.Chain' (· ≤ ·)
      (([⟨((0 : ℚ), (0 : ℚ)), 0, 0, some 0⟩, ⟨((0 : ℚ), (0 : ℚ)), 40, 30, some 1⟩,
         ⟨((0 : ℚ), (0 : ℚ)), 80, 60, some 2⟩,
         ⟨((0 : ℚ), (1 : ℚ)), 111, 333/4, some 3⟩] : List Waypoint).map
        Waypoint.estimatedTime) ∧
    (∀ w ∈ ([⟨((0 : ℚ), (0 : ℚ)), 0, 0, some 0⟩, ⟨((0 : ℚ), (0 : ℚ)), 40, 30, some 1⟩,
         ⟨((0 : ℚ), (0 : ℚ)), 80, 60, some 2⟩,
         ⟨((0 : ℚ), (1 : ℚ)), 111, 333/4, some 3⟩] : List Waypoint),
      (0 : ℚ) ≤ w.estimatedTime) := by
  have hres : calculateRouteSegments (constGeom 111 (0, 0))
      (some [((0 : ℚ), (0 : ℚ)), ((0 : ℚ), (1 : ℚ))]) 30 80 0 =
      some [⟨(0, 0), 0, 0, some 0⟩, ⟨(0, 0), 40, 30, some 1⟩,
            ⟨(0, 0), 80, 60, some 2⟩, ⟨(0, 1), 111, 333/4, some 3⟩] := by
    have hf : ⌈(111 : ℚ) / 40⌉₊ = 3 := by
      rw [Nat.ceil_eq_iff (by norm_num)]
      norm_num
    norm_num [calculateRouteSegments, toLngLat, distancePerInterval, constGeom, hf,
      loopIter, List.getLastI]
  exact C2_amended_monotone (constGeom 111 (0, 0)) [(0, 0), (0, 1)] 30 80 0 111 _
    (by norm_num) (by norm_num) rfl hres

/-- Claim C5 counterexample: the two waypoints of the short-route case carry
no `segmentIndex` field at all (the source constructs them without it), so
not every returned waypoint carries an index. -/
theorem C5_counterexample :
    ∃ ws : List Waypoint,
      calculateRouteSegments (constGeom 10 (0, 0))
        (some [((0 : ℚ), (0 : ℚ)), ((0 : ℚ), (1 : ℚ))]) 30 80 0 = some ws ∧
      ∃ w ∈ ws, w.segmentIndex = none := by
  refine ⟨_, calc_short_route (constGeom 10 (0, 0)) [(0, 0), (0, 1)] 30 80 0 10
    (by norm_num) rfl (by norm_num [distancePerInterval]), ?_⟩
  exact ⟨_, List.mem_cons_self _ _, rfl⟩

/-- Claim C5 amended: the general-case and fallback waypoints carry
contiguous `segmentIndex` values from 0 in sequence order; the two
short-route waypoints carry no `segmentIndex` at all. -/
theorem C5_amended_indices (G : Geometry) (coords : List GeoPoint)
    (intervalMinutes averageSpeedKmh departureTimeMinutes : ℚ)
    (h2 : 2 ≤ coords.length) :
    (∀ total, G.length (toLngLat coords) = some total →
      total ≤ distancePerInterval averageSpeedKmh intervalMinutes →
      ∃ w₁ w₂, calculateRouteSegments G (some coords) intervalMinutes
          averageSpeedKmh departureTimeMinutes = some [w₁, w₂] ∧
        w₁.segmentIndex = none ∧ w₂.segmentIndex = none) ∧
    (∀ total ws, G.length (toLngLat coords) = some total →
      distancePerInterval averageSpeedKmh intervalMinutes < total →
      calculateRouteSegments G (some coords) intervalMinutes averageSpeedKmh
        departureTimeMinutes = some ws →
      ws.map Waypoint.segmentIndex = (List.range ws.length).map some) ∧
    (G.length (toLngLat coords) = none →
      (calculateRouteSegments G (some coords) intervalMinutes averageSpeedKmh
        departureTimeMinutes).map (List.map Waypoint.segmentIndex) =
        some [some 0, some 1]) := by
  refine ⟨?_, ?_, ?_⟩
  · intro total hlen hshort
    exact ⟨_, _, calc_short_route G coords intervalMinutes averageSpeedKmh
      departureTimeMinutes total h2 hlen hshort, rfl, rfl⟩
  · intro total ws hlen hgen hres
    have hd := calc_general_dpi_pos G coords intervalMinutes averageSpeedKmh
      departureTimeMinutes total ws h2 hlen hgen hres
    rw [calc_general G coords intervalMinutes averageSpeedKmh
      departureTimeMinutes total h2 hlen hgen] at hres
    rcases Option.map_eq_some'.mp hres with ⟨mid, hmid, hws⟩
    obtain ⟨-, -, hidx⟩ := loopIter_inv G (toLngLat coords) total
      (distancePerInterval averageSpeedKmh intervalMinutes) averageSpeedKmh
      departureTimeMinutes hd _ 0 1 mid hmid
    subst hws
    rw [List.map_cons, List.map_append, List.map_singleton, hidx]
    exact indices_contiguous mid.length _ (by simp)
  · intro hfail
    rw [calc_fallback G coords intervalMinutes averageSpeedKmh
      departureTimeMinutes h2 hfail]
    rfl

/-- Witness for C5 amended: the short-route pair has no indices; the
fallback pair has indices 0 and 1. -/
theorem C5_amended_indices_witness :
    (∃ w₁ w₂, calculateRouteSegments (constGeom 10 (0, 0))
        (some [((0 : ℚ), (0 : ℚ)), ((0 : ℚ), (1 : ℚ))]) 30 80 0 = some [w₁, w₂] ∧
      w₁.segmentIndex = none ∧ w₂.segmentIndex = none) ∧
    (calculateRouteSegments failGeom
        (some [((0 : ℚ), (0 : ℚ)), ((0 : ℚ), (1 : ℚ))]) 30 80 0).map
      (List.map Waypoint.segmentIndex) = some [some 0, some 1] :=
  ⟨(C5_amended_indices (constGeom 10 (0, 0)) [(0, 0), (0, 1)] 30 80 0
      (by norm_num)).1 10 rfl (by norm_num [distancePerInterval]),
   (C5_amended_indices failGeom [(0, 0), (0, 1)] 30 80 0 (by norm_num)).2.2 rfl⟩

/-- Claim C6: for the 2-point polyline from (0,0) to (0,1°) — about 111 km
(here: any turf length `L` with `111 ≤ L ≤ 111.2`) — with a 30-minute
interval at 80 km/h (40 km per interval) and departure 0, the result is
exactly the waypoints at distances 0, 40, 80, `L` with times 0, 30, 60 and
`L/80·60 ∈ [83.25, 83.4]`: samples are emitted while the cursor is strictly
below `totalDistance - distancePerInterval`, and the exact end point is
appended last. -/
theorem C6_scenario_A (G : Geometry) (L : ℚ) (p40 p80 : GeoPoint)
    (hlen : G.length (toLngLat [((0 : ℚ), (0 : ℚ)), ((0 : ℚ), (1 : ℚ))]) = some L)
    (hL1 : 111 ≤ L) (hL2 : L ≤ 556/5)
    (h40 : G.along (toLngLat [((0 : ℚ), (0 : ℚ)), ((0 : ℚ), (1 : ℚ))]) 40 = some p40)
    (h80 : G.along (toLngLat [((0 : ℚ), (0 : ℚ)), ((0 : ℚ), (1 : ℚ))]) 80 = some p80) :
    calculateRouteSegments G (some [((0 : ℚ), (0 : ℚ)), ((0 : ℚ), (1 : ℚ))]) 30 80 0 =
      some [⟨((0 : ℚ), (0 : ℚ)), 0, 0, some 0⟩,
            ⟨(p40.2, p40.1), 40, 30, some 1⟩,
            ⟨(p80.2, p80.1), 80, 60, some 2⟩,
            ⟨((0 : ℚ), (1 : ℚ)), L, L / 80 * 60, some 3⟩] ∧
    (333/4 : ℚ) ≤ L / 80 * 60 ∧ L / 80 * 60 ≤ 417/5 := by
  have hdpi : distancePerInterval 80 30 = 40 := by norm_num [distancePerInterval]
  refine ⟨?_, by linarith, by linarith⟩
  rw [calc_general G [((0 : ℚ), (0 : ℚ)), ((0 : ℚ), (1 : ℚ))] 30 80 0 L
    (by norm_num) hlen (by rw [hdpi]; linarith), hdpi]
  obtain ⟨k, hk⟩ : ∃ k, ⌈L / 40⌉₊ = k + 1 :=
    ⟨⌈L / 40⌉₊ - 1, by
      have : 0 < ⌈L / 40⌉₊ := Nat.ceil_pos.mpr (div_pos (by linarith) (by norm_num))
      omega⟩
  rw [hk]
  rw [loopIter_succ_some G (toLngLat [((0 : ℚ), (0 : ℚ)), ((0 : ℚ), (1 : ℚ))])
    L 40 80 0 0 1 (k + 1) p40 (by linarith)
    (by rw [show (0 : ℚ) + 40 = 40 by norm_num]; exact h40)]
  rw [loopIter_succ_some G (toLngLat [((0 : ℚ), (0 : ℚ)), ((0 : ℚ), (1 : ℚ))])
    L 40 80 0 (0 + 40) 2 k p80 (by linarith)
    (by rw [show (0 : ℚ) + 40 + 40 = 80 by norm_num]; exact h80)]
  rw [loopIter_exit G (toLngLat [((0 : ℚ), (0 : ℚ)), ((0 : ℚ), (1 : ℚ))])
    L 40 80 0 (0 + 40 + 40) 3 k (by push_neg; linarith)]
  norm_num [List.getLastI]

/-- Witness for C6: the constant-geometry instance with `L = 111` realises
scenario A with times 0, 30, 60, 83.25. -/
theorem C6_scenario_A_witness :
    calculateRouteSegments (constGeom 111 (0, 0))
        (some [((0 : ℚ), (0 : ℚ)), ((0 : ℚ), (1 : ℚ))]) 30 80 0 =
      some [⟨(0, 0), 0, 0, some 0⟩, ⟨(0, 0), 40, 30, some 1⟩,
            ⟨(0, 0), 80, 60, some 2⟩, ⟨(0, 1), 111, 111 / 80 * 60, some 3⟩] ∧
    (333/4 : ℚ) ≤ 111 / 80 * 60 ∧ (111 : ℚ) / 80 * 60 ≤ 417/5 :=
  C6_scenario_A (constGeom 111 (0, 0)) 111 (0, 0) (0, 0) rfl (by norm_num)
    (by norm_num) rfl rfl

